import Mathlib

/-!
Verification of the docker-mirror-checker service (`app.py`).

The embedding models the pure control flow of the Python source:
network outcomes become an explicit `Attempt` value per URL, the
filesystem touched by the config writer becomes an explicit `FS`
state, MySQL upserts become state-passing functions, and Python's
stable key-based `sort`/`sorted` becomes `List.mergeSort` with the
corresponding boolean key order.  Response times (Python floats used
only in comparisons and one running mean) are modelled as `ℚ`.
-/

namespace MirrorChecker

/-! ### Probe (`test_mirror`, app.py lines 110–141)

One attempt at a single URL either returns a response object with a
status code, raises `urllib.error.HTTPError` with a code, raises
`urllib.error.URLError` (DNS failure, connection refused, some
timeouts), or raises any other exception (e.g. `socket.timeout`). -/

inductive Attempt where
  | resp (code : ℤ)
  | httpErr (code : ℤ)
  | urlErr
  | otherExc
deriving DecidableEq

/-- Status codes accepted directly from a response (line 127). -/
def availCodes : List ℤ := [200, 301, 302, 401, 404]

/-- `HTTPError` codes still counted as available (line 133). -/
def httpErrAvailCodes : List ℤ := [401, 403, 404]

/-- The body of the `for test_url in test_urls` loop of `test_mirror`
(lines 120–139): `some r` means the loop returns `r`, `none` means the
loop falls through to the next URL (an unlisted response code, a
`URLError`, or any other exception). -/
def classifyAttempt : Attempt → Option (Bool × String × ℤ)
  | .resp code =>
      if code ∈ availCodes then some (true, "可用", code)
      else if code = 403 then some (true, "可用（需要认证）", code)
      else none
  | .httpErr code =>
      if code ∈ httpErrAvailCodes then
        some (true, "可用（HTTP " ++ toString code ++ "）", code)
      else some (false, "HTTP 错误: " ++ toString code, code)
  | .urlErr => none
  | .otherExc => none

/-- The two URL variants tried by `test_mirror`, in source order
(lines 115–118): the versioned `/v2/` endpoint first, then the bare
mirror URL. -/
def test_urls (mirror : String) : List String :=
  [mirror ++ "/v2/", mirror]

/-- The `for` loop of `test_mirror` over a list of URLs, with the
network modelled as a map from URL to `Attempt`.  Besides the result
it records which URLs were actually requested, in order.  Falling off
the end of the loop returns `(False, "连接失败", 0)` (line 141). -/
def test_mirror_go (net : String → Attempt) :
    List String → (Bool × String × ℤ) × List String
  | [] => ((false, "连接失败", 0), [])
  | u :: rest =>
    match classifyAttempt (net u) with
    | some r => (r, [u])
    | none =>
      let p := test_mirror_go net rest
      (p.1, u :: p.2)

/-- `test_mirror(mirror, timeout)` (lines 110–141): availability flag,
status message and HTTP status code. -/
def test_mirror (net : String → Attempt) (mirror : String) :
    Bool × String × ℤ :=
  (test_mirror_go net (test_urls mirror)).1

/-- The URLs a `test_mirror` invocation actually requests, in order. -/
def attemptsTried (net : String → Attempt) (mirror : String) :
    List String :=
  (test_mirror_go net (test_urls mirror)).2

/-! ### Aggregator results and batch ordering
(`test_all_mirrors_background` lines 232–276, `test_all` lines 506–540) -/

/-- The dictionary built by `test_mirror_detailed` (lines 144–164);
every field is present on a freshly produced result. -/
structure TestResult where
  mirror : String
  available : Bool
  status : String
  status_code : ℤ
  response_time : ℚ
deriving DecidableEq

/-- `False < True` on booleans, as Python orders them (`False` = 0). -/
def boolLt (a b : Bool) : Bool := !a && b

/-- The comparison induced by the sort key
`lambda x: (not x['available'], x['response_time'])` (lines 256 and
533): lexicographic on the pair. -/
def sortKeyLe (x y : TestResult) : Bool :=
  boolLt (!x.available) (!y.available) ||
    ((!x.available) == (!y.available) && decide (x.response_time ≤ y.response_time))

/-- `results.sort(key=lambda x: (not x['available'], x['response_time']))`. -/
def sortResults (l : List TestResult) : List TestResult :=
  l.mergeSort sortKeyLe

/-- The batch dictionary built after sorting (lines 258–263 and
535–540): the ordered results together with `total`, `available`
and `unavailable` counts. -/
def batchResponse (l : List TestResult) :
    List TestResult × ℕ × ℕ × ℕ :=
  let sorted := sortResults l
  (sorted, sorted.length,
    sorted.countP (fun r => r.available),
    sorted.countP (fun r => !r.available))

/-! ### Cached results and the recommended configuration
(`auto_update_docker_config` lines 346–362,
`get_recommended_config` lines 576–601)

These read results back from Redis / the in-memory cache through
`dict.get` with defaults: a missing `response_time` field becomes the
sentinel `9999`, a missing `available` field becomes `False` (modelled
by the plain boolean). -/

structure CResult where
  mirror : String
  available : Bool
  response_time : Option ℚ
deriving DecidableEq

/-- `x.get('response_time', 9999)`. -/
def rtKey (r : CResult) : ℚ := r.response_time.getD 9999

/-- The comparison used by `sorted(available, key=lambda x:
x.get('response_time', 9999))`. -/
def rtLe (x y : CResult) : Bool := decide (rtKey x ≤ rtKey y)

/-- Lines 350–358 / 577–587: filter to the available results, sort by
response time ascending, take the fastest five. -/
def recommendFrom (results : List CResult) : List CResult :=
  (((results.filter (fun r => r.available)).mergeSort rtLe).take 5)

/-- `get_recommended_config` (lines 555–601), reduced to its data:
`none` models the two error responses (no data at all / no available
mirror); otherwise the mirror list of the recommendation, its length,
and the number of available results. -/
def get_recommended_config (results : List CResult) :
    Option (List String × ℕ × ℕ) :=
  if results = [] then none
  else
    let available := results.filter (fun r => r.available)
    if available = [] then none
    else
      let sorted_available := available.mergeSort rtLe
      let recommended := sorted_available.take 5
      some (recommended.map (fun r => r.mirror), recommended.length,
        available.length)

/-! ### The external config file (`auto_update_docker_config`,
lines 346–412)

`daemon.json` is a JSON object; the code only rewrites its
`registry-mirrors` key.  A JSON value is modelled just deeply enough
to distinguish the mirror array from arbitrary other fields, and the
file system state carries what the function touches: the config
directory, the config file, its `.bak` sibling, and whether
creating the directory / writing the file would succeed. -/

inductive JVal where
  | strArr (ss : List String)
  | prim (s : String)
deriving DecidableEq

/-- A parsed JSON object: ordered key/value pairs, unique keys as in a
Python dict. -/
abbrev Cfg := List (String × JVal)

/-- Python dict assignment `d[k] = v`: replace in place if the key
exists, append otherwise. -/
def setKey (c : Cfg) (k : String) (v : JVal) : Cfg :=
  if c.any (fun p => decide (p.1 = k)) then
    c.map (fun p => if p.1 = k then (k, v) else p)
  else c ++ [(k, v)]

/-- Content of a file that is expected to hold JSON: either it parses
to an object, or `json.load` raises on it. -/
inductive FileData where
  | good (c : Cfg)
  | malformed
deriving DecidableEq

structure FS where
  dirExists : Bool
  mkdirOk : Bool
  file : Option FileData
  backupFile : Option FileData
  writeOk : Bool
deriving DecidableEq

/-- How one call of `auto_update_docker_config` exits (every branch
only prints in the source; the function itself always returns `None`). -/
inductive ApplyOutcome where
  | noAvailableMirrors
  | mkdirFailed
  | wrote (merged : Cfg)
  | permissionDenied
deriving DecidableEq

/-- `auto_update_docker_config(test_result)` (lines 346–412) as a
state transformer on the file system. -/
def auto_update_docker_config (tr : List CResult) (fs : FS) :
    FS × ApplyOutcome :=
  let available := tr.filter (fun r => r.available)
  if available = [] then (fs, .noAvailableMirrors)
  else
    let sorted_available := available.mergeSort rtLe
    let recommended := sorted_available.take 5
    let mirrors := recommended.map (fun r => r.mirror)
    if fs.dirExists = false ∧ fs.mkdirOk = false then (fs, .mkdirFailed)
    else
      let fs1 : FS := { fs with dirExists := true }
      let fs2 : FS :=
        match fs1.file with
        | some d => { fs1 with backupFile := some d }
        | none => fs1
      let existing_config : Cfg :=
        match fs2.file with
        | some (.good c) => c
        | some .malformed => []
        | none => []
      let merged := setKey existing_config "registry-mirrors" (.strArr mirrors)
      if fs2.writeOk then ({ fs2 with file := some (.good merged) }, .wrote merged)
      else (fs2, .permissionDenied)

/-- The `/api/config/update` route `update_docker_config_manual`
(lines 604–644): with no cached results it answers the 400 error,
otherwise it calls `auto_update_docker_config` and answers
`{"success": True}` unconditionally. -/
inductive ManualResponse where
  | errNoData
  | success
deriving DecidableEq

def update_docker_config_manual (results : List CResult) (fs : FS) :
    FS × ManualResponse :=
  if results = [] then (fs, .errNoData)
  else
    let p := auto_update_docker_config results fs
    (p.1, .success)

/-! ### Durable rolling statistics (`save_test_result_to_db`,
lines 190–222)

The `mirror_statistics` upsert.  In the `ON DUPLICATE KEY UPDATE`
branch MySQL evaluates assignments left to right, so `total_tests` in
the average formula already denotes the incremented value; the
embedding binds `total'` first accordingly and keeps the literal
`(avg * (total' - 1) + rt) / total'` shape of line 200. -/

structure MirrorStat where
  total_tests : ℕ
  success_count : ℕ
  fail_count : ℕ
  avg_response_time : ℚ
  last_success_time : Option ℕ
  last_fail_time : Option ℕ
  current_status : Bool
deriving DecidableEq

def upsert_statistics (st : Option MirrorStat) (available : Bool)
    (response_time : ℚ) (test_time : ℕ) : MirrorStat :=
  match st with
  | none =>
    { total_tests := 1
      success_count := if available then 1 else 0
      fail_count := if available then 0 else 1
      avg_response_time := response_time
      last_success_time := if available then some test_time else none
      last_fail_time := if available then none else some test_time
      current_status := available }
  | some s =>
    let total' := s.total_tests + 1
    { total_tests := total'
      success_count := s.success_count + (if available then 1 else 0)
      fail_count := s.fail_count + (if available then 0 else 1)
      avg_response_time :=
        (s.avg_response_time * ((total' : ℚ) - 1) + response_time) / (total' : ℚ)
      last_success_time := if available then some test_time else s.last_success_time
      last_fail_time := if available then s.last_fail_time else some test_time
      current_status := available }

/-! ### Scheduler (`scheduled_test`, lines 431–465)

One invocation of the timer callback: it tries
`test_lock.acquire(blocking=False)`; if the lock is held the body is
skipped, otherwise the run executes (taking `dur` time units) and the
lock is released; in both cases the callback then immediately arms
`threading.Timer(3600.0, scheduled_test)`.  The outcome records when
the callback finished, when it armed the next timer, and when that
timer will fire. -/

structure TickOutcome where
  ran : Bool
  finishTime : ℕ
  armTime : ℕ
  nextFire : ℕ
deriving DecidableEq

def scheduled_test_tick (lockHeld : Bool) (now dur : ℕ) : TickOutcome :=
  if lockHeld then
    { ran := false, finishTime := now, armTime := now, nextFire := now + 3600 }
  else
    { ran := true, finishTime := now + dur, armTime := now + dur,
      nextFire := now + dur + 3600 }

/-- The run-exclusion lock is held from the moment an executing tick
starts until its run completes. -/
def lockBusy (start dur t : ℕ) : Bool := decide (start ≤ t ∧ t < start + dur)

/-! ## Helper lemmas -/

lemma sortKeyLe_trans (x y z : TestResult) (hxy : sortKeyLe x y = true)
    (hyz : sortKeyLe y z = true) : sortKeyLe x z = true := by
  simp only [sortKeyLe, boolLt] at *
  cases hx : x.available <;> cases hy : y.available <;> cases hz : z.available <;>
      simp_all
  · exact le_trans hxy hyz
  · exact le_trans hxy hyz

lemma sortKeyLe_total (x y : TestResult) :
    (sortKeyLe x y || sortKeyLe y x) = true := by
  simp only [sortKeyLe, boolLt]
  cases hx : x.available <;> cases hy : y.available <;> simp_all
  · exact le_total _ _
  · exact le_total _ _

lemma rtLe_trans (x y z : CResult) (hxy : rtLe x y = true)
    (hyz : rtLe y z = true) : rtLe x z = true := by
  simp only [rtLe, decide_eq_true_eq] at *
  exact le_trans hxy hyz

lemma rtLe_total (x y : CResult) : (rtLe x y || rtLe y x) = true := by
  simp only [rtLe, Bool.or_eq_true, decide_eq_true_eq]
  exact le_total _ _

lemma countP_avail_add_countP_not (l : List TestResult) :
    l.countP (fun r => r.available) + l.countP (fun r => !r.available) =
      l.length := by
  induction l with
  | nil => rfl
  | cons h t ih =>
    cases hh : h.available <;> simp [List.countP_cons, hh] <;> omega

/-! ## Claims -/

/-- **C1.** For every batch produced by an aggregation run (the result
list of `batchResponse`, shared by `test_all_mirrors_background` and
`test_all`), every result with `available = true` precedes every
result with `available = false`, and within the available group
`response_time` is non-decreasing. -/
theorem batch_ordering_invariant (l : List TestResult) :
    (batchResponse l).1.Pairwise (fun a b =>
      (b.available = true → a.available = true) ∧
      (a.available = true → b.available = true →
        a.response_time ≤ b.response_time)) := by
  have h := List.sorted_mergeSort sortKeyLe_trans sortKeyLe_total l
  refine h.imp ?_
  intro a b hab
  constructor
  · intro hb
    cases ha : a.available
    · simp [sortKeyLe, boolLt, ha, hb] at hab
    · rfl
  · intro ha hb
    simp [sortKeyLe, boolLt, ha, hb] at hab
    exact hab

/-- **C10.** In every batch response, `total` equals the number of
result entries, and `total = available + unavailable`, every entry
being counted exactly once (counting available and unavailable entries
exhausts the list); the empty endpoint list yields `(0, 0, 0)`. -/
theorem batch_counts_consistent (l : List TestResult) :
    (batchResponse l).2.1 = (batchResponse l).1.length ∧
    (batchResponse l).2.1 = l.length ∧
    (batchResponse l).2.1 = (batchResponse l).2.2.1 + (batchResponse l).2.2.2 ∧
    batchResponse [] = ([], 0, 0, 0) := by
  refine ⟨rfl, ?_, ?_, ?_⟩
  · exact (List.mergeSort_perm l sortKeyLe).length_eq
  · exact (countP_avail_add_countP_not (sortResults l)).symm
  · simp [batchResponse, sortResults]

/-- **C2.** `test_mirror` classifies outcomes: a response whose status
code is in {200, 301, 302, 401, 404} is available with the code
preserved; a 403 response is available with the distinguished
requires-auth label ("可用（需要认证）"); an `HTTPError` with code in
{401, 403, 404} is available; any other `HTTPError` code is
unavailable with that code; and a connection-level failure
(`URLError` or any other exception, e.g. timeout) on all variants
yields `(False, "连接失败" ("connection failed"), 0)`.  A classifiable
outcome of the first variant is the probe result. -/
theorem probe_classification :
    (∀ code : ℤ, code ∈ availCodes →
        classifyAttempt (.resp code) = some (true, "可用", code)) ∧
    classifyAttempt (.resp 403) = some (true, "可用（需要认证）", 403) ∧
    (∀ code : ℤ, code ∈ httpErrAvailCodes →
        classifyAttempt (.httpErr code) =
          some (true, "可用（HTTP " ++ toString code ++ "）", code)) ∧
    (∀ code : ℤ, code ∉ httpErrAvailCodes →
        classifyAttempt (.httpErr code) =
          some (false, "HTTP 错误: " ++ toString code, code)) ∧
    classifyAttempt .urlErr = none ∧
    classifyAttempt .otherExc = none ∧
    (∀ (net : String → Attempt) (mirror : String) (r : Bool × String × ℤ),
        classifyAttempt (net (mirror ++ "/v2/")) = some r →
        test_mirror net mirror = r) ∧
    (∀ (net : String → Attempt) (mirror : String),
        (∀ u ∈ test_urls mirror, net u = .urlErr ∨ net u = .otherExc) →
        test_mirror net mirror = (false, "连接失败", 0)) := by
  refine ⟨?_, by decide, ?_, ?_, rfl, rfl, ?_, ?_⟩
  · intro code hc
    simp [classifyAttempt, hc]
  · intro code hc
    simp [classifyAttempt, hc]
  · intro code hc
    simp [classifyAttempt, hc]
  · intro net mirror r hr
    simp [test_mirror, test_urls, test_mirror_go, hr]
  · intro net mirror h
    have h1 := h (mirror ++ "/v2/") (by simp [test_urls])
    have h2 := h mirror (by simp [test_urls])
    have c1 : classifyAttempt (net (mirror ++ "/v2/")) = none := by
      rcases h1 with h1 | h1 <;> rw [h1] <;> rfl
    have c2 : classifyAttempt (net mirror) = none := by
      rcases h2 with h2 | h2 <;> rw [h2] <;> rfl
    simp [test_mirror, test_urls, test_mirror_go, c1, c2]

/-- Witness for C2 at concrete codes and a concrete network. -/
theorem probe_classification_witness :
    classifyAttempt (.resp 200) = some (true, "可用", 200) ∧
    classifyAttempt (.httpErr 404) =
      some (true, "可用（HTTP " ++ toString (404 : ℤ) ++ "）", 404) ∧
    classifyAttempt (.httpErr 500) =
      some (false, "HTTP 错误: " ++ toString (500 : ℤ), 500) ∧
    test_mirror (fun _ => .urlErr) "https://m" = (false, "连接失败", 0) :=
  ⟨probe_classification.1 200 (by decide),
   probe_classification.2.2.1 404 (by decide),
   probe_classification.2.2.2.1 500 (by decide),
   probe_classification.2.2.2.2.2.2.2 (fun _ => .urlErr) "https://m"
     (fun _ _ => Or.inl rfl)⟩

/-- The network used to refute C3's stated variant order: the bare
mirror URL answers HTTP 200, the `/v2/` variant raises
`HTTPError 500`. -/
def rootOkNet : String → Attempt :=
  fun u => if u = "https://m" then .resp 200 else .httpErr 500

/-- **C3, counterexample.** The claim says the root-path variant is
tried first; if it were, this probe (whose root variant yields the
classifiable response 200) would return `(True, "可用", 200)` and
request only the root URL.  Instead the code requests the `/v2/`
variant first and returns its `HTTPError 500` classification. -/
theorem probe_variant_order_counterexample :
    classifyAttempt (rootOkNet "https://m") = some (true, "可用", 200) ∧
    (test_mirror rootOkNet "https://m").1 = false ∧
    test_mirror rootOkNet "https://m" ≠ (true, "可用", 200) ∧
    attemptsTried rootOkNet "https://m" = ["https://m/v2/"] := by
  refine ⟨by decide, by decide, ?_, by decide⟩
  intro h
  have h1 : (test_mirror rootOkNet "https://m").1 = false := by decide
  rw [h] at h1
  simp at h1

/-- **C3, amended.** A probe invocation tries the URL variants in this
order: first the versioned `/v2/` variant, then the root variant; the
first variant yielding a classifiable response short-circuits the
remaining variant, and no variant is retried within the invocation
(the list of requested URLs has no duplicates). -/
theorem probe_variant_order (net : String → Attempt) (mirror : String) :
    test_urls mirror = [mirror ++ "/v2/", mirror] ∧
    (∀ r, classifyAttempt (net (mirror ++ "/v2/")) = some r →
        test_mirror net mirror = r ∧
        attemptsTried net mirror = [mirror ++ "/v2/"]) ∧
    (classifyAttempt (net (mirror ++ "/v2/")) = none →
      ∀ r, classifyAttempt (net mirror) = some r →
        test_mirror net mirror = r ∧
        attemptsTried net mirror = [mirror ++ "/v2/", mirror]) ∧
    (classifyAttempt (net (mirror ++ "/v2/")) = none →
      classifyAttempt (net mirror) = none →
        test_mirror net mirror = (false, "连接失败", 0) ∧
        attemptsTried net mirror = [mirror ++ "/v2/", mirror]) ∧
    (attemptsTried net mirror).Nodup := by
  have hne : mirror ++ "/v2/" ≠ mirror := by
    intro h
    have := congrArg String.length h
    simp [String.length_append] at this
    exact absurd this (by decide)
  refine ⟨rfl, ?_, ?_, ?_, ?_⟩
  · intro r hr
    constructor <;> simp [test_mirror, attemptsTried, test_urls, test_mirror_go, hr]
  · intro h1 r hr
    constructor <;>
      simp [test_mirror, attemptsTried, test_urls, test_mirror_go, h1, hr]
  · intro h1 h2
    constructor <;>
      simp [test_mirror, attemptsTried, test_urls, test_mirror_go, h1, h2]
  · rcases hc : classifyAttempt (net (mirror ++ "/v2/")) with _ | r
    · rcases hc2 : classifyAttempt (net mirror) with _ | r2 <;>
        simp [attemptsTried, test_urls, test_mirror_go, hc, hc2, hne]
    · simp [attemptsTried, test_urls, test_mirror_go, hc]

/-- Witness for C3 (amended) on a concrete classifiable-first network. -/
theorem probe_variant_order_witness :
    test_mirror (fun _ => .resp 200) "https://m" = (true, "可用", 200) ∧
    attemptsTried (fun _ => .resp 200) "https://m" = ["https://m/v2/"] :=
  (probe_variant_order (fun _ => .resp 200) "https://m").2.1
    (true, "可用", 200) (by decide)

/-- **C4.** The recommended configuration filters to available
results, sorts ascending by `response_time` (a missing field counts as
the sentinel 9999), and takes the first 5: every recommended mirror
comes from an available input result, at most 5 are kept, the kept
results are in non-decreasing sentinel-latency order, and a snapshot
whose only available result is `B` recommends exactly `[B.mirror]`. -/
theorem recommended_config_spec :
    (∀ (results : List CResult) (out : List String × ℕ × ℕ),
        get_recommended_config results = some out →
        out.1.length ≤ 5 ∧
        (∀ m ∈ out.1, ∃ r ∈ results, r.available = true ∧ r.mirror = m) ∧
        out.1 = (recommendFrom results).map (fun r => r.mirror) ∧
        (recommendFrom results).Pairwise (fun a b => rtKey a ≤ rtKey b)) ∧
    (∀ (results : List CResult) (B : CResult),
        results.filter (fun r => r.available) = [B] →
        get_recommended_config results = some ([B.mirror], 1, 1)) := by
  constructor
  · intro results out h
    have hout : out =
        ((((results.filter (fun r => r.available)).mergeSort rtLe).take 5).map
            (fun r => r.mirror),
          (((results.filter (fun r => r.available)).mergeSort rtLe).take 5).length,
          (results.filter (fun r => r.available)).length) := by
      unfold get_recommended_config at h
      split at h
      · exact absurd h (by simp)
      · dsimp only at h
        split at h
        · exact absurd h (by simp)
        · exact (Option.some.inj h).symm
    subst hout
    refine ⟨?_, ?_, rfl, ?_⟩
    · simp [List.length_take]
    · intro m hm
      simp only [List.mem_map] at hm
      obtain ⟨r, hr, rfl⟩ := hm
      have hr2 : r ∈ (results.filter (fun r => r.available)).mergeSort rtLe :=
        List.mem_of_mem_take hr
      have hr3 : r ∈ results.filter (fun r => r.available) :=
        (List.mergeSort_perm _ _).mem_iff.mp hr2
      have hr4 := List.of_mem_filter hr3
      exact ⟨r, List.mem_of_mem_filter hr3, hr4, rfl⟩
    · have hs := List.sorted_mergeSort rtLe_trans rtLe_total
        (results.filter (fun r => r.available))
      have ht : (recommendFrom results).Pairwise (fun a b => rtLe a b = true) :=
        hs.sublist (List.take_sublist _ _)
      exact ht.imp fun hab => of_decide_eq_true hab
  · intro results B hf
    have hne : results ≠ [] := by
      intro h
      subst h
      simp at hf
    simp [get_recommended_config, hf, hne, List.mergeSort_singleton]

/-- The snapshot used to witness C4: one unavailable and one available
result. -/
def snapshotW : List CResult :=
  [⟨"https://a", false, some 10⟩, ⟨"https://b", true, some 20⟩]

/-- Witness for C4: on `snapshotW`, whose only available result is
`https://b`, the recommendation is exactly `["https://b"]`, of length
at most 5. -/
theorem recommended_config_witness :
    get_recommended_config snapshotW = some (["https://b"], 1, 1) ∧
    (["https://b"], (1 : ℕ), (1 : ℕ)).1.length ≤ 5 := by
  have h2 := recommended_config_spec.2 snapshotW ⟨"https://b", true, some 20⟩
    (by decide)
  have h1 := (recommended_config_spec.1 snapshotW (["https://b"], 1, 1) h2).1
  exact ⟨h2, h1⟩

/-- **C5.** When no result in the snapshot is available, the apply
operation leaves the file system (config file and backup alike)
untouched and reports the non-fatal no-available-mirrors condition
(the source prints "没有可用的镜像源，跳过配置更新" and returns). -/
theorem no_available_skips_config_write (tr : List CResult) (fs : FS)
    (h : ∀ r ∈ tr, r.available = false) :
    auto_update_docker_config tr fs = (fs, .noAvailableMirrors) := by
  have hf : tr.filter (fun r => r.available) = [] := by
    rw [List.filter_eq_nil_iff]
    intro a ha
    simp [h a ha]
  simp [auto_update_docker_config, hf]

/-- The file-system state used by the C5 witness: config dir present,
a config file with one unrelated field, write permitted. -/
def fsW : FS :=
  ⟨true, true, some (.good [("log-driver", .prim "json-file")]), none, true⟩

/-- Witness for C5 at an all-unavailable concrete snapshot. -/
theorem no_available_skips_config_write_witness :
    auto_update_docker_config [⟨"https://a", false, some 5⟩] fsW =
      (fsW, .noAvailableMirrors) :=
  no_available_skips_config_write [⟨"https://a", false, some 5⟩] fsW (by decide)

/-- Reading one field of a parsed JSON object (first binding wins; a
Python dict has unique keys). -/
def getField (c : Cfg) (k : String) : Option JVal :=
  match c with
  | [] => none
  | p :: t => if p.1 = k then some p.2 else getField t k

lemma getField_map_set_same (c : Cfg) (k : String) (v : JVal)
    (h : ∃ p ∈ c, p.1 = k) :
    getField (c.map (fun p => if p.1 = k then (k, v) else p)) k = some v := by
  induction c with
  | nil => simp at h
  | cons p t ih =>
    by_cases hp : p.1 = k
    · simp [getField, hp]
    · obtain ⟨q, hq, hqk⟩ := h
      rcases List.mem_cons.mp hq with hq | hq
      · exact absurd hqk (hq ▸ hp)
      · simp only [List.map_cons, getField, if_neg hp]
        exact ih ⟨q, hq, hqk⟩

lemma getField_map_set_other (c : Cfg) (k : String) (v : JVal) (k' : String)
    (hk : k' ≠ k) :
    getField (c.map (fun p => if p.1 = k then (k, v) else p)) k' =
      getField c k' := by
  induction c with
  | nil => rfl
  | cons p t ih =>
    by_cases hp : p.1 = k
    · have h1 : ¬(k = k') := fun h => hk h.symm
      have h2 : ¬(p.1 = k') := by rw [hp]; exact h1
      simp [getField, hp, h1, h2, ih]
    · simp [getField, hp, ih]

lemma getField_append_single_same (c : Cfg) (k : String) (v : JVal)
    (h : ∀ p ∈ c, p.1 ≠ k) :
    getField (c ++ [(k, v)]) k = some v := by
  induction c with
  | nil => simp [getField]
  | cons p t ih =>
    have hp : p.1 ≠ k := h p (List.mem_cons_self p t)
    simp only [List.cons_append, getField, if_neg hp]
    exact ih fun q hq => h q (List.mem_cons_of_mem _ hq)

lemma getField_append_single_other (c : Cfg) (k : String) (v : JVal)
    (k' : String) (hk : k' ≠ k) :
    getField (c ++ [(k, v)]) k' = getField c k' := by
  induction c with
  | nil =>
    have hkk : ¬(k = k') := fun h => hk h.symm
    simp [getField, hkk]
  | cons p t ih =>
    by_cases hp : p.1 = k'
    · simp [getField, hp]
    · simp [getField, hp, ih]

/-- Setting a key makes it read back as the new value. -/
lemma getField_setKey_self (c : Cfg) (k : String) (v : JVal) :
    getField (setKey c k v) k = some v := by
  unfold setKey
  split
  · rename_i h
    refine getField_map_set_same c k v ?_
    simpa using h
  · rename_i h
    refine getField_append_single_same c k v ?_
    intro p hp
    simp only [List.any_eq_true, decide_eq_true_eq] at h
    intro hpk
    exact h ⟨p, hp, hpk⟩

/-- Setting a key leaves every other key's value unchanged. -/
lemma getField_setKey_other (c : Cfg) (k : String) (v : JVal)
    (k' : String) (hk : k' ≠ k) :
    getField (setKey c k v) k' = getField c k' := by
  unfold setKey
  split
  · exact getField_map_set_other c k v k' hk
  · exact getField_append_single_other c k v k' hk

/-- **C6.** For every existing, well-formed external config object and
every snapshot with at least one available result (hence a non-empty
recommended list), the merge-and-write step of
`auto_update_docker_config` writes exactly the original object with
its `registry-mirrors` field replaced by the new list: reading the
file back yields an object that agrees with the original on every
other field. -/
theorem config_merge_roundtrip (tr : List CResult) (fs : FS) (cfg : Cfg)
    (hfile : fs.file = some (.good cfg))
    (hdir : fs.dirExists = true)
    (hw : fs.writeOk = true)
    (hav : tr.filter (fun r => r.available) ≠ []) :
    ∃ (mirrors : List String) (merged : Cfg),
      mirrors ≠ [] ∧
      auto_update_docker_config tr fs =
        ({ fs with
            dirExists := true
            backupFile := some (.good cfg)
            file := some (.good merged) }, .wrote merged) ∧
      merged = setKey cfg "registry-mirrors" (.strArr mirrors) ∧
      getField merged "registry-mirrors" = some (.strArr mirrors) ∧
      (∀ k, k ≠ "registry-mirrors" → getField merged k = getField cfg k) := by
  refine ⟨(((tr.filter (fun r => r.available)).mergeSort rtLe).take 5).map
      (fun r => r.mirror), _, ?_, ?_, rfl,
    getField_setKey_self _ _ _, fun k hk => getField_setKey_other _ _ _ k hk⟩
  · have h1 : 0 < (tr.filter (fun r => r.available)).length :=
      List.length_pos.mpr hav
    have h2 : ((tr.filter (fun r => r.available)).mergeSort rtLe).length =
        (tr.filter (fun r => r.available)).length :=
      (List.mergeSort_perm _ _).length_eq
    intro hnil
    have hlen := congrArg List.length hnil
    rw [List.length_map, List.length_take, h2] at hlen
    rcases Nat.min_eq_zero_iff.mp hlen with h5 | h0 <;> omega
  · simp [auto_update_docker_config, hav, hdir, hfile, hw]

/-- One-available-mirror snapshot for the C6 witness. -/
def snapshotB : List CResult := [⟨"https://b", true, some 20⟩]

/-- Witness for C6 at a concrete config file and snapshot. -/
theorem config_merge_roundtrip_witness :
    ∃ (mirrors : List String) (merged : Cfg),
      mirrors ≠ [] ∧
      auto_update_docker_config snapshotB fsW =
        ({ fsW with
            dirExists := true
            backupFile := some (.good [("log-driver", .prim "json-file")])
            file := some (.good merged) }, .wrote merged) ∧
      merged = setKey [("log-driver", .prim "json-file")] "registry-mirrors"
        (.strArr mirrors) ∧
      getField merged "registry-mirrors" = some (.strArr mirrors) ∧
      (∀ k, k ≠ "registry-mirrors" →
        getField merged k = getField [("log-driver", .prim "json-file")] k) :=
  config_merge_roundtrip snapshotB fsW [("log-driver", .prim "json-file")]
    rfl rfl rfl (by decide)

/-- **C7.** Upserting one probe result into existing statistics
`(old_avg, total_tests_before)`: the stored average becomes
`(old_avg * total_tests_before + new_latency) / (total_tests_before + 1)`
(the latency enters regardless of success or failure), `total_tests`
increments by 1, exactly one of `success_count`/`fail_count`
increments, only the matching one of `last_success_time` /
`last_fail_time` is updated, and `current_status` is overwritten with
the probe's availability. -/
theorem stats_upsert_running_mean (s : MirrorStat) (available : Bool)
    (rt : ℚ) (t : ℕ) :
    (upsert_statistics (some s) available rt t).avg_response_time =
        (s.avg_response_time * (s.total_tests : ℚ) + rt) /
          ((s.total_tests : ℚ) + 1) ∧
    (upsert_statistics (some s) available rt t).total_tests =
        s.total_tests + 1 ∧
    (upsert_statistics (some s) available rt t).success_count +
        (upsert_statistics (some s) available rt t).fail_count =
      s.success_count + s.fail_count + 1 ∧
    (upsert_statistics (some s) available rt t).current_status = available ∧
    (available = true →
      (upsert_statistics (some s) available rt t).success_count =
          s.success_count + 1 ∧
      (upsert_statistics (some s) available rt t).fail_count = s.fail_count ∧
      (upsert_statistics (some s) available rt t).last_success_time = some t ∧
      (upsert_statistics (some s) available rt t).last_fail_time =
        s.last_fail_time) ∧
    (available = false →
      (upsert_statistics (some s) available rt t).fail_count =
          s.fail_count + 1 ∧
      (upsert_statistics (some s) available rt t).success_count =
        s.success_count ∧
      (upsert_statistics (some s) available rt t).last_fail_time = some t ∧
      (upsert_statistics (some s) available rt t).last_success_time =
        s.last_success_time) := by
  refine ⟨?_, rfl, ?_, rfl, ?_, ?_⟩
  · show (s.avg_response_time * (((s.total_tests + 1 : ℕ) : ℚ) - 1) + rt) /
        ((s.total_tests + 1 : ℕ) : ℚ) = _
    push_cast
    ring_nf
  · cases available <;> simp [upsert_statistics] <;> omega
  · intro h
    subst h
    simp [upsert_statistics]
  · intro h
    subst h
    simp [upsert_statistics]

/-- Pre-existing statistics row used by the C7 witness. -/
def statW : MirrorStat := ⟨2, 1, 1, 75, some 10, some 20, false⟩

/-- Witness for C7: a successful probe at 30 ms against `statW`. -/
theorem stats_upsert_running_mean_witness :
    (upsert_statistics (some statW) true 30 40).avg_response_time =
        (statW.avg_response_time * (statW.total_tests : ℚ) + 30) /
          ((statW.total_tests : ℚ) + 1) ∧
    (upsert_statistics (some statW) true 30 40).total_tests =
        statW.total_tests + 1 ∧
    (upsert_statistics (some statW) true 30 40).success_count =
        statW.success_count + 1 ∧
    (upsert_statistics (some statW) true 30 40).last_fail_time =
        statW.last_fail_time ∧
    (upsert_statistics (some statW) true 30 40).current_status = true := by
  have h := stats_upsert_running_mean statW true 30 40
  exact ⟨h.1, h.2.1, (h.2.2.2.2.1 rfl).1, (h.2.2.2.2.1 rfl).2.2.2,
    h.2.2.2.1⟩

/-- **C8, counterexample.** Tick 1 at time 0 starts a run lasting 100;
tick 2 fires at time 10 while the lock is busy and is skipped — but it
arms its own next timer immediately at time 10 (before the active run
completes at 100), to fire at 3610, not at one interval after the
run's completion.  This refutes "the next timer is armed only after
the active run completes". -/
theorem scheduler_overlap_counterexample :
    lockBusy 0 100 10 = true ∧
    (scheduled_test_tick false 0 100).ran = true ∧
    (scheduled_test_tick false 0 100).finishTime = 100 ∧
    (scheduled_test_tick true 10 0).ran = false ∧
    (scheduled_test_tick true 10 0).armTime = 10 ∧
    (scheduled_test_tick true 10 0).armTime <
      (scheduled_test_tick false 0 100).finishTime ∧
    (scheduled_test_tick true 10 0).nextFire = 3610 ∧
    (scheduled_test_tick true 10 0).nextFire ≠
      (scheduled_test_tick false 0 100).finishTime + 3600 := by
  decide

/-- **C8, amended.** When a second tick fires while a run is still in
progress, exactly one run executes, and the skipped tick does not
block; the executing tick arms its next timer only after its run
completes (one interval after completion), but the skipped tick arms
its own next timer immediately at the skip time, one interval after
the tick itself — so two timers end up pending, and the skipped
tick's interval is measured from the tick, not from run completion. -/
theorem scheduler_overlap (t1 d t2 d2 : ℕ) (h1 : t1 ≤ t2)
    (h2 : t2 < t1 + d) :
    (scheduled_test_tick false t1 d).ran = true ∧
    (scheduled_test_tick (lockBusy t1 d t2) t2 d2).ran = false ∧
    (scheduled_test_tick (lockBusy t1 d t2) t2 d2).finishTime = t2 ∧
    (scheduled_test_tick false t1 d).armTime = t1 + d ∧
    (scheduled_test_tick false t1 d).nextFire = t1 + d + 3600 ∧
    (scheduled_test_tick (lockBusy t1 d t2) t2 d2).armTime = t2 ∧
    (scheduled_test_tick (lockBusy t1 d t2) t2 d2).nextFire = t2 + 3600 := by
  have hb : lockBusy t1 d t2 = true := by
    simp only [lockBusy, decide_eq_true_eq]
    exact ⟨h1, h2⟩
  rw [hb]
  simp [scheduled_test_tick]

/-- Witness for C8 (amended) at the concrete overlap of the
counterexample. -/
theorem scheduler_overlap_witness :
    (scheduled_test_tick false 0 100).ran = true ∧
    (scheduled_test_tick (lockBusy 0 100 10) 10 7).ran = false ∧
    (scheduled_test_tick (lockBusy 0 100 10) 10 7).finishTime = 10 ∧
    (scheduled_test_tick false 0 100).armTime = 0 + 100 ∧
    (scheduled_test_tick false 0 100).nextFire = 0 + 100 + 3600 ∧
    (scheduled_test_tick (lockBusy 0 100 10) 10 7).armTime = 10 ∧
    (scheduled_test_tick (lockBusy 0 100 10) 10 7).nextFire = 10 + 3600 :=
  scheduler_overlap 0 100 10 7 (by decide) (by decide)

/-- Concrete state used to refute C9: one available mirror cached, the
config directory exists, but writing `daemon.json` is denied. -/
def deniedFS : FS := ⟨true, true, none, none, false⟩

/-- **C9, counterexample.** With write permission denied, the apply
step fails with the permission-denied condition, yet the manual
`/api/config/update` route still answers `{"success": True}`: the
failure is not reported to the route's caller as an error value. -/
theorem manual_update_success_counterexample :
    (auto_update_docker_config snapshotB deniedFS).2 = .permissionDenied ∧
    (update_docker_config_manual snapshotB deniedFS).2 = .success := by
  constructor
  · simp [auto_update_docker_config, snapshotB, deniedFS,
      List.mergeSort_singleton]
  · simp [update_docker_config_manual, snapshotB]

/-- **C9, amended.** Configuration I/O failures (missing directory
that cannot be created, permission denied on write) are caught inside
the apply operation and are never fatal: the write is skipped and the
file is left unchanged; the manual route nonetheless reports success
whenever any cached results exist.  A malformed existing config file
is treated as an empty object and does not block the write. -/
theorem manual_update_contains_io_failures (results : List CResult)
    (fs : FS) (hne : results ≠ []) :
    (update_docker_config_manual results fs).2 = .success ∧
    (fs.writeOk = false →
      (auto_update_docker_config results fs).1.file = fs.file) ∧
    (fs.dirExists = false → fs.mkdirOk = false →
      auto_update_docker_config results fs = (fs, .mkdirFailed) ∨
      auto_update_docker_config results fs = (fs, .noAvailableMirrors)) ∧
    (fs.file = some .malformed → fs.writeOk = true → fs.dirExists = true →
      results.filter (fun r => r.available) ≠ [] →
      ∃ mirrors : List String, mirrors ≠ [] ∧
        (auto_update_docker_config results fs).2 =
          .wrote (setKey ([] : Cfg) "registry-mirrors" (.strArr mirrors))) := by
  refine ⟨by simp [update_docker_config_manual, hne], ?_, ?_, ?_⟩
  · intro hw
    by_cases hA : results.filter (fun r => r.available) = []
    · simp [auto_update_docker_config, hA]
    · by_cases hd : fs.dirExists = false ∧ fs.mkdirOk = false
      · simp [auto_update_docker_config, hA, hd]
      · rcases hfile : fs.file with _ | fd
        · simp [auto_update_docker_config, hA, hd, hfile, hw]
        · rcases fd with c | _ <;>
            simp [auto_update_docker_config, hA, hd, hfile, hw]
  · intro hd hm
    by_cases hA : results.filter (fun r => r.available) = []
    · right
      simp [auto_update_docker_config, hA]
    · left
      simp [auto_update_docker_config, hA, hd, hm]
  · intro hmal hw hdir hA
    refine ⟨(((results.filter (fun r => r.available)).mergeSort rtLe).take
        5).map (fun r => r.mirror), ?_, ?_⟩
    · have h1 : 0 < (results.filter (fun r => r.available)).length :=
        List.length_pos.mpr hA
      have h2 : ((results.filter (fun r => r.available)).mergeSort
          rtLe).length = (results.filter (fun r => r.available)).length :=
        (List.mergeSort_perm _ _).length_eq
      intro hnil
      have hlen := congrArg List.length hnil
      rw [List.length_map, List.length_take, h2] at hlen
      rcases Nat.min_eq_zero_iff.mp hlen with h5 | h0 <;> omega
    · simp [auto_update_docker_config, hA, hdir, hmal, hw]

/-- File-system state for the C9 witness: config file present but
malformed, directory present, write permitted. -/
def malformedFS : FS := ⟨true, true, some .malformed, none, true⟩

/-- Witness for C9 (amended): on a malformed config file the write
goes through from an empty object, and the route reports success. -/
theorem manual_update_contains_io_failures_witness :
    (update_docker_config_manual snapshotB malformedFS).2 = .success ∧
    (∃ mirrors : List String, mirrors ≠ [] ∧
      (auto_update_docker_config snapshotB malformedFS).2 =
        .wrote (setKey ([] : Cfg) "registry-mirrors" (.strArr mirrors))) := by
  have h := manual_update_contains_io_failures snapshotB malformedFS
    (by decide)
  exact ⟨h.1, h.2.2.2 rfl rfl rfl (by decide)⟩

end MirrorChecker
